import Mathlib

/-!
Verification development for src/collate.py of the TRAC-Scraping
repository: a shallow embedding of its table/row parsing, its
traversal-with-checkpoint engine and its dataset normalizer, together
with theorems settling the specification claims.

Python values are modelled as follows: str as String, int as Int,
dict (insertion ordered) as an association list that appends fresh
keys at the end and updates existing keys in place, raised exceptions
as Except errors.
-/

set_option autoImplicit false

namespace TracCollate

/-- Prefix test on character lists, used to model the Python substring
operator. -/
def isPrefixChars : List Char → List Char → Bool
  | [], _ => true
  | _ :: _, [] => false
  | a :: as, b :: bs => (a = b) && isPrefixChars as bs

/-- Substring test on character lists. -/
def containsSub : List Char → List Char → Bool
  | sub, [] => sub.isEmpty
  | sub, c :: rest => isPrefixChars sub (c :: rest) || containsSub sub rest

/-- Python `sub in s` for strings. -/
def pyIn (sub s : String) : Bool := containsSub sub.data s.data

/-- The local predicate `is_meaningful` of `Table.calculate_rows`
(src/collate.py lines 109-110): a text row is kept when it is nonempty
and contains neither "All" nor "Total" as a substring. -/
def is_meaningful (text : String) : Bool :=
  (text != "") && !(pyIn "All" text) && !(pyIn "Total" text)

/-- Python whitespace characters recognized by str.strip / int(). -/
def pyIsSpace (c : Char) : Bool :=
  c = ' ' || c = '\t' || c = '\n' || c = '\r' || c = '\x0b' || c = '\x0c'

/-- Digit tail of a Python integer literal: decimal digits separated by
at most one underscore between two digits. -/
def pyDigitsAux : List Char → Nat → Option Nat
  | [], acc => some acc
  | '_' :: rest, acc =>
    match rest with
    | c :: rest2 =>
        if c.isDigit then pyDigitsAux rest2 (acc * 10 + (c.toNat - 48)) else none
    | [] => none
  | c :: rest, acc =>
      if c.isDigit then pyDigitsAux rest (acc * 10 + (c.toNat - 48)) else none

/-- A nonempty digit sequence (with internal underscores) and its value. -/
def pyParseDigits : List Char → Option Nat
  | c :: rest => if c.isDigit then pyDigitsAux rest (c.toNat - 48) else none
  | [] => none

/-- Python `int(s)` for base-10 string input: strips surrounding
whitespace, accepts an optional sign and decimal digits with single
underscores between digits. Non-ASCII digit forms accepted by CPython
are outside the scope of this model; every input appearing in this file
is ASCII. Returns none where int() raises ValueError. -/
def pyInt (s : String) : Option Int :=
  let l := s.data.dropWhile pyIsSpace
  let l := (l.reverse.dropWhile pyIsSpace).reverse
  match l with
  | '+' :: rest => (pyParseDigits rest).map (fun n => (n : Int))
  | '-' :: rest => (pyParseDigits rest).map (fun n => -(n : Int))
  | rest => (pyParseDigits rest).map (fun n => (n : Int))

/-- Python `s.replace(",", "")`. -/
def stripCommas (s : String) : String := String.mk (s.data.filter (fun c => c != ','))

/-- Python `text.rsplit(" ", 1)`: splits at the last occurrence of the
single space character. Returns some (before, after) when the text
contains a space, none otherwise (the code then unpacks one value into
two names, a ValueError). -/
def rsplitLastSpace : List Char → Option (List Char × List Char)
  | [] => none
  | c :: rest =>
    match rsplitLastSpace rest with
    | some (a, b) => some (c :: a, b)
    | none => if c = ' ' then some ([], rest) else none

/-- The data carried by a Row (src/collate.py lines 146-153): a name
and an integer value. The web element handle and table variant do not
influence parsing and are omitted here. -/
structure RowData where
  name : String
  value : Int
deriving DecidableEq, Repr

/-- `Row.__init__` (src/collate.py lines 148-153):
`self.name, self.value = text.rsplit(" ", 1)` followed by
`self.value = int(self.value.replace(",", ""))`. Errors model the
ValueError raised on a space-free line (tuple unpacking) and on a value
that int() rejects. -/
def rowInit (text : String) : Except String RowData :=
  match rsplitLastSpace text.data with
  | none => Except.error "ValueError: not enough values to unpack"
  | some (n, v) =>
    match pyInt (stripCommas (String.mk v)) with
    | none => Except.error "ValueError: invalid literal for int"
    | some k => Except.ok { name := String.mk n, value := k }

/-- Accumulating splitter behind `pySplitNewline`. -/
def splitLinesAux : List Char → List Char → List String
  | [], acc => [String.mk acc.reverse]
  | c :: rest, acc =>
      if c = '\n' then String.mk acc.reverse :: splitLinesAux rest []
      else splitLinesAux rest (c :: acc)

/-- Python `text.split("\n")`: the segments between newline
characters; the empty string yields one empty segment. -/
def pySplitNewline (s : String) : List String := splitLinesAux s.data []

/-- The filtered text rows of `Table.calculate_rows` (src/collate.py
lines 111-114): the rendered table text split on newlines, with the
rows failing `is_meaningful` removed (the code lists the indices to
skip and keeps the rest, which preserves order). -/
def keptLines (tableText : String) : List String :=
  (pySplitNewline tableText).filter is_meaningful

/-- Python `l[n:]` for a possibly negative n. -/
def pySliceFrom {α : Type} (n : Int) (l : List α) : List α :=
  if 0 ≤ n then l.drop n.toNat
  else l.drop (l.length - (-n).toNat)

/-- The element/line pairs zipped by `Table.calculate_rows`
(src/collate.py lines 115-119): the first
`len(row_elements) - len(text_rows)` elements are dropped, then the
remaining elements are zipped with the kept text rows. Row elements are
opaque handles, modelled as naturals. -/
def pairedRows (rowElements : List Nat) (tableText : String) : List (Nat × String) :=
  (pySliceFrom ((rowElements.length : Int) - ((keptLines tableText).length : Int))
    rowElements).zip (keptLines tableText)

/-- The list comprehension of `Table.calculate_rows` (src/collate.py
line 119): a Row from each element/text pair, in order; the first Row
constructor that raises aborts the whole computation. -/
def rowsFromPairs : List (Nat × String) → Except String (List RowData)
  | [] => Except.ok []
  | p :: rest =>
    match rowInit p.2 with
    | Except.error e => Except.error e
    | Except.ok r =>
      match rowsFromPairs rest with
      | Except.error e => Except.error e
      | Except.ok rs => Except.ok (r :: rs)

/-- `Table.calculate_rows` (src/collate.py lines 108-119) after the
row-element wait succeeded. -/
def calculate_rows (rowElements : List Nat) (tableText : String) :
    Except String (List RowData) :=
  rowsFromPairs (pairedRows rowElements tableText)

/-- Modelled from the spec: "value is parsed by splitting the row's raw
text on the last whitespace run". Splits at the last whitespace
character and removes the whitespace run adjoining it on the left, so
the name never retains trailing whitespace. Used only to compare the
spec wording against the source's `rsplit(" ", 1)`. -/
def specSplitWsRunAux : List Char → Option (List Char × List Char)
  | [] => none
  | c :: rest =>
    match specSplitWsRunAux rest with
    | some (a, b) => some (c :: a, b)
    | none => if pyIsSpace c then some ([], rest) else none

/-- Modelled from the spec: the (name, value) split described by the
specification, via `specSplitWsRunAux`. -/
def specSplitLastRun (s : String) : Option (String × String) :=
  match specSplitWsRunAux s.data with
  | none => none
  | some (a, b) =>
      some (String.mk ((a.reverse.dropWhile pyIsSpace).reverse), String.mk b)

/-- Table-3 block of the dataset: an insertion-ordered mapping from
table-3 row name to its integer value. -/
abbrev T3Block := List (String × Int)

/-- Inner level of the dataset: table-2 row name to table-3 block. -/
abbrev T2Map := List (String × T3Block)

/-- The nested dataset built by `CollationEngine.create_dataset`:
table-1 row name to inner mapping, insertion ordered like a Python
dict. -/
abbrev Dataset := List (String × T2Map)

instance : DecidableEq T3Block :=
  inferInstanceAs (DecidableEq (List (String × Int)))

instance : DecidableEq T2Map :=
  inferInstanceAs (DecidableEq (List (String × T3Block)))

instance : DecidableEq Dataset :=
  inferInstanceAs (DecidableEq (List (String × T2Map)))

/-- Python dict membership `k in d.keys()`. -/
def dsHasKey (d : Dataset) (k : String) : Bool :=
  d.any (fun p => p.1 == k)

/-- `data[k] = {}` when k is absent (src/collate.py lines 409-410):
appends a fresh key with an empty inner dict, leaves an existing key
untouched. -/
def dsSetDefaultEmpty (d : Dataset) (k : String) : Dataset :=
  if dsHasKey d k then d else d ++ [(k, [])]

/-- Assignment into an insertion-ordered mapping: update in place when
the key exists, append otherwise. -/
def alSet {β : Type} : List (String × β) → String → β → List (String × β)
  | [], k, v => [(k, v)]
  | (k1, v1) :: rest, k, v =>
      if k1 == k then (k1, v) :: rest else (k1, v1) :: alSet rest k v

/-- `data[t1][t2] = block` (src/collate.py lines 459-461). -/
def dsSetPair (d : Dataset) (t1 t2 : String) (block : T3Block) : Dataset :=
  d.map (fun p => if p.1 == t1 then (p.1, alSet p.2 t2 block) else p)

/-- The dict comprehension building a table-3 block from the parsed
table-3 rows (src/collate.py lines 459-461): later duplicates of a name
overwrite the value at the first position. -/
def buildT3Block (rows : List (String × Int)) : T3Block :=
  rows.foldl (fun acc p => alSet acc p.1 p.2) []

/-- Pair lookup in the dataset: the table-3 block recorded for a
(table-1 name, table-2 name) pair, none when the pair is absent. -/
def dsLookupPair (d : Dataset) (t1 t2 : String) : Option T3Block :=
  match d.find? (fun p => p.1 == t1) with
  | none => none
  | some p =>
    match p.2.find? (fun q => q.1 == t2) with
    | none => none
    | some q => some q.2

/-- Outcome of one click interaction with the live page. -/
inductive ClickRes
  | ok
  | staleRef
  | timeoutExc
deriving DecidableEq, Repr

/-- Exceptions escaping `create_dataset`. `datasetExc` is the
DatasetException of src/collate.py lines 63-67, carrying the dumped
dataset (the checkpoint file content) and the loop indices; the other
constructors model the selenium TimeoutException and the ValueError of
axis validation, neither of which is caught by the engine loop. -/
inductive PyError
  | datasetExc (dump : Dataset) (t1Index : Nat) (t2Index : Option Nat)
  | timeoutExc
  | valueErr (msg : String)
deriving DecidableEq, Repr

/-- The live webpage as seen by the traversal: the presented table-1
row names, the table-2 row names shown after clicking a table-1 row,
and the parsed table-3 rows shown after clicking a table-2 row under a
table-1 row. The linked-table behavior of the site is captured by the
dependency of each level on the names clicked above it. -/
structure Env where
  t1Rows : List String
  t2Rows : String → List String
  t3Rows : String → String → List (String × Int)

/-- One attempt's scripted interaction outcomes: what each click
returns during this attempt. Row reads are modelled as succeeding; the
spec's failure model raises staleness on interaction (clicks), and a
timeout on a read would reach the engine loop by the same uncaught
path as a timeout on a click. -/
structure Script where
  t1Click : String → ClickRes
  t2Click : String → String → ClickRes

/-- The resume slicing `if current_row != None: rows = rows[current_row:]`
(src/collate.py lines 399-400 and 432-433). -/
def pyDropOpt (k : Option Nat) (l : List String) : List String :=
  match k with
  | some n => l.drop n
  | none => l

/-- The inner loop of `create_dataset` over table-2 rows
(src/collate.py lines 436-461): j enumerates the (already sliced)
table-2 row list from 0; a stale click dumps the data and raises
DatasetException (i, j); a timeout propagates; on success the table-3
rows are read and recorded, overwriting any prior block for the pair. -/
def t2Loop (env : Env) (s : Script) (t1name : String) (i : Nat) :
    Dataset → Nat → List String → Except PyError Dataset
  | data, _, [] => Except.ok data
  | data, j, t2name :: rest =>
    match s.t2Click t1name t2name with
    | ClickRes.staleRef => Except.error (PyError.datasetExc data i (some j))
    | ClickRes.timeoutExc => Except.error PyError.timeoutExc
    | ClickRes.ok =>
        let data := dsSetPair data t1name t2name
          (buildT3Block (env.t3Rows t1name t2name))
        t2Loop env s t1name i data (j + 1) rest

/-- The outer loop of `create_dataset` over table-1 rows
(src/collate.py lines 404-461): i enumerates the (already sliced)
table-1 row list from 0; an empty inner dict is created for a fresh
name before clicking; a stale click dumps the data and raises
DatasetException (i, none); on success the table-2 rows are fetched
and, whenever curT2 is set, sliced from curT2 - the parameter is never
cleared, so the slice applies to every iteration of this attempt. -/
def t1Loop (env : Env) (s : Script) (curT2 : Option Nat) :
    Dataset → Nat → List String → Except PyError Dataset
  | data, _, [] => Except.ok data
  | data, i, t1name :: rest =>
    let data := dsSetDefaultEmpty data t1name
    match s.t1Click t1name with
    | ClickRes.staleRef => Except.error (PyError.datasetExc data i none)
    | ClickRes.timeoutExc => Except.error PyError.timeoutExc
    | ClickRes.ok =>
        match t2Loop env s t1name i data 0 (pyDropOpt curT2 (env.t2Rows t1name)) with
        | Except.ok data2 => t1Loop env s curT2 data2 (i + 1) rest
        | Except.error e => Except.error e

/-- `CollationEngine.create_dataset` (src/collate.py lines 364-461):
initializes the dataset from the dump file when one is given, slices
the table-1 rows from curT1 when set, and runs the nested traversal.
The dataframe construction at lines 463-468 is modelled separately by
`makeDF`. -/
def create_dataset (env : Env) (s : Script) (dump : Option Dataset)
    (curT1 curT2 : Option Nat) : Except PyError Dataset :=
  t1Loop env s curT2 (dump.getD []) 0 (pyDropOpt curT1 env.t1Rows)

/-- Result of the engine's retry loop. `spent` reports the resume state
still pending when the supplied attempt scripts run out (the loop in
the source is unbounded, so a run that keeps failing resumably never
leaves it). -/
inductive EngineOut
  | done (d : Dataset)
  | fatal (e : PyError)
  | spent (dump : Option Dataset) (curT1 curT2 : Option Nat)
deriving DecidableEq, Repr

/-- The `while True` retry loop of `CollationEngine.__init__`
(src/collate.py lines 343-356): each attempt runs `create_dataset`;
only DatasetException is caught, and its dump and indices become the
next attempt's resume arguments; any other exception escapes the loop;
success leaves the loop. One script per attempt. -/
def engineLoop (env : Env) :
    List Script → Option Dataset → Option Nat → Option Nat → EngineOut
  | [], dump, c1, c2 => EngineOut.spent dump c1 c2
  | s :: rest, dump, c1, c2 =>
    match create_dataset env s dump c1 c2 with
    | Except.ok data => EngineOut.done data
    | Except.error (PyError.datasetExc dmp i j) =>
        engineLoop env rest (some dmp) (some i) j
    | Except.error e => EngineOut.fatal e

/-- The two supported webpage variants (object-whole and link-whole). -/
inductive Variant
  | object
  | link
deriving DecidableEq, Repr

/-- A click observable during engine initialization: opening an axis
menu, or clicking one of its options. -/
inductive UIEvent
  | menuClick (menu : Nat)
  | optionClick (menu : Nat) (name : String)
deriving DecidableEq, Repr

/-- Clicks issued while constructing one AxisMenu (src/collate.py
lines 169-218): for the object variant, `calculate_options` must click
the menu before the listbox holding the options appears in the DOM;
for the link variant the options are children of the menu element and
are read without clicking. -/
def axisMenuInitEvents (v : Variant) (i : Nat) : List UIEvent :=
  match v with
  | Variant.object => [UIEvent.menuClick i]
  | Variant.link => []

/-- Clicks issued while building all menus (`AxisMenu.calculate_all`,
src/collate.py lines 236-245, one AxisMenu per axis index): one menu
per entry of the option-name list, in index order. -/
def menuPhaseEvents (v : Variant) (menus : List (List String)) : List UIEvent :=
  (List.range menus.length).flatMap (axisMenuInitEvents v)

/-- The inner validation loop over requested axis names for one menu
(src/collate.py lines 334-337): the first name missing from the menu's
option names raises ValueError. -/
def validateAxesMenu (options : List String) : List String → Except String Unit
  | [] => Except.ok ()
  | a :: rest =>
      if options.contains a then validateAxesMenu options rest
      else Except.error ("Axis name " ++ a ++ " could not be found")

/-- The validation loops of `CollationEngine.__init__` (src/collate.py
lines 334-337): every requested axis name is checked against every
menu's option names. -/
def validateAxes : List (List String) → List String → Except String Unit
  | [], _ => Except.ok ()
  | m :: ms, axes =>
    match validateAxesMenu m axes with
    | Except.ok _ => validateAxes ms axes
    | Except.error e => Except.error e

/-- Clicks issued by `AxisMenu.set_to` (src/collate.py lines 223-234):
for the object variant, `calculate_options` is re-run, which clicks
the menu; for the link variant the menu itself is clicked to open it;
in both variants the matching option is then clicked. -/
def setToEvents (v : Variant) (i : Nat) (a : String) : List UIEvent :=
  match v with
  | Variant.object => [UIEvent.menuClick i, UIEvent.optionClick i a]
  | Variant.link => [UIEvent.menuClick i, UIEvent.optionClick i a]

/-- The pre-traversal part of `CollationEngine.__init__` (src/collate.py
lines 322-341): menus are constructed (clicking each menu once in the
object variant), tables are located (no clicks), the requested axis
names are validated against every menu's options, and only then is
each axis selected. Returns the click trace together with the
validation outcome; on a validation error the trace contains exactly
the menu-construction clicks. -/
def engineInit (v : Variant) (menus : List (List String)) (axes : List String) :
    List UIEvent × Except String Unit :=
  let initEvents := menuPhaseEvents v menus
  match validateAxes menus axes with
  | Except.error e => (initEvents, Except.error e)
  | Except.ok _ =>
      let setEvents := axes.enum.flatMap (fun p => setToEvents v p.1 p.2)
      (initEvents ++ setEvents, Except.ok ())

/-- `CollationEngine.__init__` from axis validation onward
(src/collate.py lines 334-356): a validation failure raises ValueError
before the traversal loop runs; otherwise the retry loop is entered. -/
def engineRun (env : Env) (menus : List (List String)) (axes : List String)
    (scripts : List Script) : EngineOut :=
  match validateAxes menus axes with
  | Except.error m => EngineOut.fatal (PyError.valueErr m)
  | Except.ok _ => engineLoop env scripts none none none

/-- A dataframe with a two-level row index: the labelled rows in order,
each with its defined cells (an absent cell is NaN), and the column
labels in order. -/
structure DF where
  rows : List ((String × String) × List (String × Int))
  cols : List String
deriving DecidableEq, Repr

/-- First-occurrence deduplication, preserving order: the unique values
of an index level, and the column union order of pd.concat. -/
def dedupFirstAux : List String → List String → List String
  | [], _ => []
  | a :: rest, seen =>
      if seen.contains a then dedupFirstAux rest seen
      else a :: dedupFirstAux rest (a :: seen)

/-- First occurrences of each string, in order. -/
def dedupFirst (l : List String) : List String := dedupFirstAux l []

/-- Association-list lookup (first match). -/
def alLookup {β : Type} : List (String × β) → String → Option β
  | [], _ => none
  | (k, v) :: rest, key => if k == key then some v else alLookup rest key

/-- The dataframe built at the end of `create_dataset` (src/collate.py
lines 465-468): `pd.concat` of the transposed per-key frames stacks one
row per (table-1 name, table-2 name) pair in insertion order; a table-1
key whose inner dict is empty contributes a frame with no rows, so it
disappears from the index. The columns are the table-3 names in order
of first appearance; a cell absent from its block is NaN. (pd.concat
raises when the dataset is empty; the runs modelled here are
nonempty.) -/
def makeDF (data : Dataset) : DF :=
  let rows := data.flatMap (fun p => p.2.map (fun q => ((p.1, q.1), q.2)))
  let cols := dedupFirst (rows.flatMap (fun r => r.2.map (fun c => c.1)))
  { rows := rows, cols := cols }

/-- `self.df.index.unique(0)`: the level-0 labels in order of first
appearance. -/
def uniqueLevel0 (df : DF) : List String := dedupFirst (df.rows.map (fun r => r.1.1))

/-- `self.df.index.unique(1)`: the level-1 labels in order of first
appearance. -/
def uniqueLevel1 (df : DF) : List String := dedupFirst (df.rows.map (fun r => r.1.2))

/-- The cells of the row labelled lbl, when such a row exists. -/
def rowLookup (rows : List ((String × String) × List (String × Int)))
    (lbl : String × String) : Option (List (String × Int)) :=
  (rows.find? (fun r => r.1 == lbl)).map (fun r => r.2)

/-- src/collate.py lines 472-475: reindex the rows to the full cross
product of the unique level-0 and level-1 labels, in product order; a
pair that had a row keeps its cells, a pair that had none gets an
all-NaN row. -/
def reindexProduct (df : DF) : DF :=
  let u1 := uniqueLevel0 df
  let u2 := uniqueLevel1 df
  let newRows := u1.flatMap (fun a => u2.map (fun b =>
    ((a, b), (rowLookup df.rows (a, b)).getD [])))
  { rows := newRows, cols := df.cols }

/-- `self.df.fillna(value=0.0)` (src/collate.py line 478): every column
becomes defined in every row, an absent cell becoming 0. -/
def fillna0 (df : DF) : DF :=
  { rows := df.rows.map (fun r =>
      (r.1, df.cols.map (fun c => (c, (alLookup r.2 c).getD 0)))),
    cols := df.cols }

/-- Code-point lexicographic strict order on character lists, the order
Python uses to compare strings. -/
def charListLt : List Char → List Char → Bool
  | [], [] => false
  | [], _ :: _ => true
  | _ :: _, [] => false
  | a :: as, b :: bs => if a = b then charListLt as bs else decide (a < b)

/-- Python string comparison. -/
def strLt (a b : String) : Bool := charListLt a.data b.data

/-- Lexicographic order on two-level row labels, as used by
`sort_index` on a two-level index. -/
def labelLe (a b : String × String) : Bool :=
  strLt a.1 b.1 || (a.1 == b.1 && (strLt a.2 b.2 || a.2 == b.2))

/-- Ordered insertion for row sorting. -/
def insertRowSorted (r : (String × String) × List (String × Int)) :
    List ((String × String) × List (String × Int)) →
    List ((String × String) × List (String × Int))
  | [] => [r]
  | x :: xs => if labelLe r.1 x.1 then r :: x :: xs else x :: insertRowSorted r xs

/-- Insertion sort of the rows by label. -/
def sortRowList :
    List ((String × String) × List (String × Int)) →
    List ((String × String) × List (String × Int))
  | [] => []
  | x :: xs => insertRowSorted x (sortRowList xs)

/-- `self.df.sort_index()` (src/collate.py line 481): rows sorted by
(level 0, level 1) lexicographically. -/
def sortIndexRows (df : DF) : DF :=
  { rows := sortRowList df.rows, cols := df.cols }

/-- `CollationEngine.clean_dataset` (src/collate.py lines 470-496). The
steps up to line 481 (reindex to the cross product of the index
levels, fill NaN cells with 0, sort the rows) are modelled directly.
Line 484, `self.df = self.df.reindex(sorted(self.df.columns, axis=1))`,
passes the keyword axis to the Python builtin sorted, which accepts
only the keywords key and reverse, so that line raises TypeError on
every input; the remaining steps (the Total column at line 487, the
integer cast, the index rename) are unreachable. The error value
carries the state of self.df at the moment of the raise. -/
def clean_dataset (df : DF) : Except (String × DF) DF :=
  let df1 := reindexProduct df
  let df2 := fillna0 df1
  let df3 := sortIndexRows df2
  Except.error ("TypeError: axis is an invalid keyword argument for sorted()", df3)

/-! Concrete fixtures used by the claim theorems. -/

/-- A small site: two table-1 rows, two table-2 rows under each, one
table-3 row per pair. -/
def envAB : Env :=
  { t1Rows := ["A", "B"]
  , t2Rows := fun _ => ["X", "Y"]
  , t3Rows := fun _ _ => [("M", 1)] }

/-- An attempt in which the click on table-2 row Y under table-1 row A
raises a stale reference; every other click succeeds. -/
def scriptStaleAY : Script :=
  { t1Click := fun _ => ClickRes.ok
  , t2Click := fun a b =>
      if a == "A" && b == "Y" then ClickRes.staleRef else ClickRes.ok }

/-- An attempt in which every click succeeds. -/
def scriptAllOk : Script :=
  { t1Click := fun _ => ClickRes.ok
  , t2Click := fun _ _ => ClickRes.ok }

/-- The dataset of a full, uninterrupted traversal of `envAB`. -/
def dsFullAB : Dataset :=
  [("A", [("X", [("M", 1)]), ("Y", [("M", 1)])]),
   ("B", [("X", [("M", 1)]), ("Y", [("M", 1)])])]

/-- The dataset actually produced by the interrupted-and-resumed
traversal of `envAB`: the (B, X) pair is never collected. -/
def dsLossAB : Dataset :=
  [("A", [("X", [("M", 1)]), ("Y", [("M", 1)])]),
   ("B", [("Y", [("M", 1)])])]

/-- The checkpoint dumped when the first attempt on `envAB` fails at
pair (A, Y): the data gathered up to there. -/
def dumpAX : Dataset := [("A", [("X", [("M", 1)])])]

/-- Option names offered by each of the three menus. -/
def menusReal : List (List String) := [["Real"], ["Real"], ["Real"]]

/-- A request naming an axis missing from the menus. -/
def axesBogus : List String := ["Bogus", "Real", "Real"]

/-- Raw dataset whose table-3 names first appear out of lexicographic
order, so the dataframe columns start unsorted. -/
def dataC4 : Dataset := [("J", [("K", [("B", 2), ("A", 3)])])]

/-- A dataset already in the normalized shape the spec describes: rows
dense and sorted, columns sorted with Total last, every cell defined. -/
def dfNormC5 : DF :=
  { rows := [(("A", "X"), [("P", 3), ("Q", 7), ("Total", 10)]),
             (("A", "Y"), [("P", 0), ("Q", 2), ("Total", 2)])],
    cols := ["P", "Q", "Total"] }

/-- A sparse raw dataset: pair (A, X) and pair (B, Y) were visited,
the other two pairs of the cross product were not. -/
def dataC6 : Dataset := [("A", [("X", [("M", 3)])]), ("B", [("Y", [("N", 4)])])]

/-- The state of the dataframe at the TypeError raise for `dataC6`:
the full cross product with the gaps zero-filled, rows sorted, columns
still unsorted and no Total column. -/
def dfC6AtRaise : DF :=
  { rows := [(("A", "X"), [("M", 3), ("N", 0)]),
             (("A", "Y"), [("M", 0), ("N", 0)]),
             (("B", "X"), [("M", 0), ("N", 0)]),
             (("B", "Y"), [("M", 0), ("N", 4)])],
    cols := ["M", "N"] }

/-- Raw dataset of one pair with data columns A = 3 and B = 7. -/
def dataC9 : Dataset := [("R", [("S", [("A", 3), ("B", 7)])])]

/-- The state of the dataframe at the TypeError raise for `dataC9`. -/
def dfC9AtRaise : DF :=
  { rows := [(("R", "S"), [("A", 3), ("B", 7)])], cols := ["A", "B"] }

/-! Helper lemmas about the parsing layer. -/

theorem rsplit_none_of_not_mem : ∀ l : List Char, ' ' ∉ l → rsplitLastSpace l = none
  | [], _ => rfl
  | c :: rest, h => by
      have hrest : rsplitLastSpace rest = none :=
        rsplit_none_of_not_mem rest (fun hm => h (List.mem_cons_of_mem c hm))
      have hc : ¬ c = ' ' := fun hc => h (by simp [hc])
      simp [rsplitLastSpace, hrest, hc]

theorem not_mem_of_rsplit_none : ∀ l : List Char, rsplitLastSpace l = none → ' ' ∉ l
  | [], _ => by simp
  | c :: rest, h => by
      cases hr : rsplitLastSpace rest with
      | some p =>
          obtain ⟨a, b⟩ := p
          simp [rsplitLastSpace, hr] at h
      | none =>
          have hrest := not_mem_of_rsplit_none rest hr
          simp only [rsplitLastSpace, hr] at h
          by_cases hc : c = ' '
          · simp [hc] at h
          · intro hmem
            rcases List.mem_cons.mp hmem with h1 | h2
            · exact hc h1.symm
            · exact hrest h2

theorem rsplit_sound : ∀ l a b : List Char, rsplitLastSpace l = some (a, b) →
    l = a ++ ' ' :: b ∧ ' ' ∉ b
  | [], a, b, h => by simp [rsplitLastSpace] at h
  | c :: rest, a, b, h => by
      cases hr : rsplitLastSpace rest with
      | some p =>
          obtain ⟨a0, b0⟩ := p
          obtain ⟨ih1, ih2⟩ := rsplit_sound rest a0 b0 hr
          simp only [rsplitLastSpace, hr, Option.some.injEq, Prod.mk.injEq] at h
          obtain ⟨h1, h2⟩ := h
          subst h1
          subst h2
          exact ⟨by simp [ih1], ih2⟩
      | none =>
          simp only [rsplitLastSpace, hr] at h
          by_cases hc : c = ' '
          · rw [if_pos hc] at h
            simp only [Option.some.injEq, Prod.mk.injEq] at h
            obtain ⟨h1, h2⟩ := h
            subst h1
            subst h2
            subst hc
            exact ⟨rfl, not_mem_of_rsplit_none rest hr⟩
          · rw [if_neg hc] at h
            exact absurd h (by simp)

theorem rowsFromPairs_ok_forall : ∀ (l : List (Nat × String)) (rows : List RowData),
    rowsFromPairs l = Except.ok rows → ∀ p ∈ l, ∃ r, rowInit p.2 = Except.ok r
  | [], _, _, p, hp => absurd hp (by simp)
  | q :: rest, rows, h, p, hp => by
      cases hq : rowInit q.2 with
      | error e =>
          simp only [rowsFromPairs, hq] at h
          exact Except.noConfusion h
      | ok r =>
          cases hrest : rowsFromPairs rest with
          | error e =>
              simp only [rowsFromPairs, hq, hrest] at h
              exact Except.noConfusion h
          | ok rs =>
              rcases List.mem_cons.mp hp with h1 | h2
              · exact ⟨r, by rw [h1]; exact hq⟩
              · exact rowsFromPairs_ok_forall rest rs hrest p h2

theorem drop_pred_length {α : Type} : ∀ l : List α, l ≠ [] → ∃ x, l.drop (l.length - 1) = [x]
  | [], h => absurd rfl h
  | [a], _ => ⟨a, rfl⟩
  | a :: b :: t, _ => by
      obtain ⟨x, hx⟩ := drop_pred_length (b :: t) (by simp)
      refine ⟨x, ?_⟩
      simp only [List.length_cons, Nat.add_sub_cancel, List.drop_succ_cons] at hx ⊢
      exact hx

/-- Claim C7, counterexample: the claim says a kept line is parsed by
splitting on the last whitespace run; the code splits at the last
single space character. On the line with two spaces before the value,
the code keeps the trailing space in the name, while the split the
specification describes does not. -/
theorem c7_split_run_mismatch :
    rowInit "Mexico  1,234" = Except.ok { name := "Mexico ", value := 1234 }
  ∧ specSplitLastRun "Mexico  1,234" = some ("Mexico", "1,234")
  ∧ ("Mexico " : String) ≠ "Mexico" :=
  ⟨rfl, rfl, by decide⟩

/-- Claim C7 (amended): for a raw table read whose text lines are
"All 100", "Total 50", "Mexico 1,234", the row model contains exactly
one Row, with name Mexico and integer value 1234; lines that are empty
or contain All or Total are excluded entirely; and a kept line is
parsed by splitting at the last single space character, with commas
stripped from the value before integer parsing. -/
theorem c7_row_filtering_amended :
    (∀ es : List Nat, es ≠ [] →
        calculate_rows es "All 100\nTotal 50\nMexico 1,234" =
          Except.ok [{ name := "Mexico", value := 1234 }])
  ∧ (∀ t : String, is_meaningful t = true ↔
        (t ≠ "" ∧ pyIn "All" t = false ∧ pyIn "Total" t = false))
  ∧ (∀ (t : String) (r : RowData), rowInit t = Except.ok r →
        ∃ v : List Char, t.data = r.name.data ++ ' ' :: v ∧ ' ' ∉ v ∧
          pyInt (stripCommas (String.mk v)) = some r.value) := by
  refine ⟨?_, ?_, ?_⟩
  · intro es hes
    obtain ⟨x, hx⟩ := drop_pred_length es hes
    have hlen : 1 ≤ es.length := by
      cases es with
      | nil => exact absurd rfl hes
      | cons a t => simp
    have hkept : keptLines "All 100\nTotal 50\nMexico 1,234" = ["Mexico 1,234"] := by
      decide
    unfold calculate_rows pairedRows
    rw [hkept]
    have hslice :
        pySliceFrom ((es.length : Int) - ((["Mexico 1,234"] : List String).length : Int)) es
          = [x] := by
      show pySliceFrom ((es.length : Int) - 1) es = [x]
      unfold pySliceFrom
      rw [if_pos (by omega)]
      have ht : ((es.length : Int) - 1).toNat = es.length - 1 := by omega
      rw [ht, hx]
    rw [hslice]
    rfl
  · intro t
    simp only [is_meaningful, Bool.and_eq_true, bne_iff_ne, ne_eq, Bool.not_eq_true',
      and_assoc]
  · intro t r h
    cases hs : rsplitLastSpace t.data with
    | none =>
        simp only [rowInit, hs] at h
        exact Except.noConfusion h
    | some p =>
        obtain ⟨n, v⟩ := p
        cases hi : pyInt (stripCommas (String.mk v)) with
        | none =>
            simp only [rowInit, hs, hi] at h
            exact Except.noConfusion h
        | some k =>
            simp only [rowInit, hs, hi, Except.ok.injEq] at h
            obtain ⟨hl, hnm⟩ := rsplit_sound t.data n v hs
            refine ⟨v, ?_, hnm, ?_⟩
            · rw [hl, ← h]
            · rw [hi, ← h]

/-- Claim C7 witness: the amended concrete behavior at a one-element
row-element list. -/
theorem c7_row_filtering_amended_witness :
    calculate_rows [7] "All 100\nTotal 50\nMexico 1,234" =
      Except.ok [{ name := "Mexico", value := 1234 }] :=
  c7_row_filtering_amended.1 [7] (by decide)

/-- Claim C10: Row construction is partial. A meaningful line with no
space character makes the unpacking of rsplit raise; a line whose
substring after the last space does not parse as an integer once
commas are removed makes int() raise; and whenever any zipped line of
a table read raises, the whole row computation errors instead of
skipping the line. -/
theorem c10_row_construction_partial :
    (∀ t : String, is_meaningful t = true → ' ' ∉ t.data →
        ∃ msg, rowInit t = Except.error msg)
  ∧ (∀ (t : String) (n v : List Char), rsplitLastSpace t.data = some (n, v) →
        pyInt (stripCommas (String.mk v)) = none →
        ∃ msg, rowInit t = Except.error msg)
  ∧ (∀ (es : List Nat) (txt : String), ∀ p ∈ pairedRows es txt,
        (∃ msg, rowInit p.2 = Except.error msg) →
        ∀ rows, calculate_rows es txt ≠ Except.ok rows) := by
  refine ⟨?_, ?_, ?_⟩
  · intro t _ hsp
    exact ⟨"ValueError: not enough values to unpack",
      by simp [rowInit, rsplit_none_of_not_mem t.data hsp]⟩
  · intro t n v hs hi
    exact ⟨"ValueError: invalid literal for int", by simp [rowInit, hs, hi]⟩
  · intro es txt p hp herr rows hok
    obtain ⟨msg, hmsg⟩ := herr
    obtain ⟨r, hr⟩ := rowsFromPairs_ok_forall (pairedRows es txt) rows hok p hp
    rw [hmsg] at hr
    exact absurd hr (by simp)

/-- Claim C10 witness: a space-free meaningful line and a line with a
non-numeric value both make Row construction raise. -/
theorem c10_row_construction_partial_witness :
    (∃ msg, rowInit "Mexico" = Except.error msg)
  ∧ (∃ msg, rowInit "Mexico abc" = Except.error msg) := by
  constructor
  · exact c10_row_construction_partial.1 "Mexico" (by decide) (by decide)
  · exact c10_row_construction_partial.2.1 "Mexico abc" "Mexico".data "abc".data
      (by decide) (by decide)

/-- Claim C1, evaluation of the code at a failing input: on `envAB`,
one attempt interrupted by a stale reference at pair (A, Y) and one
clean resumed attempt complete successfully, but the final dataset is
missing the (B, X) pair that the uninterrupted traversal collects: the
table-2 resume index is applied to the fresh table-1 row B as well, so
its first table-2 row is silently skipped and the pair is dropped. -/
theorem c1_resume_drops_pairs :
    engineLoop envAB [scriptStaleAY, scriptAllOk] none none none = EngineOut.done dsLossAB
  ∧ engineLoop envAB [scriptAllOk] none none none = EngineOut.done dsFullAB
  ∧ dsLookupPair dsLossAB "B" "X" = none
  ∧ dsLookupPair dsFullAB "B" "X" = some [("M", 1)] :=
  ⟨rfl, rfl, rfl, rfl⟩

/-- Claim C2, evaluation of the code at a failing input: in a resumed
attempt with table-2 resume index 1, the fresh table-1 row B (absent
from the checkpoint) does not start its table-2 traversal from the
first table-2 row X: the slice `t2_rows[current_t2_row:]` is applied
inside the table-1 loop on every iteration, so B only visits Y. -/
theorem c2_resume_slice_hits_fresh_rows :
    create_dataset envAB scriptAllOk (some dumpAX) (some 0) (some 1) = Except.ok dsLossAB
  ∧ envAB.t2Rows "B" = ["X", "Y"]
  ∧ dsHasKey dumpAX "B" = false
  ∧ dsLookupPair dsLossAB "B" "X" = none :=
  ⟨rfl, rfl, rfl, rfl⟩

/-! Helper lemmas about the initialization click trace. -/

theorem flatMap_object_menuClick : ∀ l : List Nat,
    l.flatMap (axisMenuInitEvents Variant.object) = l.map UIEvent.menuClick
  | [] => rfl
  | x :: t => by simp [axisMenuInitEvents, flatMap_object_menuClick t]

theorem flatMap_link_nil : ∀ l : List Nat,
    l.flatMap (axisMenuInitEvents Variant.link) = []
  | [] => rfl
  | x :: t => by simp [axisMenuInitEvents, flatMap_link_nil t]

/-- Claim C3, counterexample: for the object variant, requesting an
axis name absent from the menus fails with the UnknownAxis ValueError,
but three menu-opening clicks were already issued before the
validation check ran, so the click count before validation is not
zero. -/
theorem c3_object_clicks_before_validation :
    (engineInit Variant.object menusReal axesBogus).2 =
      Except.error "Axis name Bogus could not be found"
  ∧ (engineInit Variant.object menusReal axesBogus).1 =
      [UIEvent.menuClick 0, UIEvent.menuClick 1, UIEvent.menuClick 2]
  ∧ (engineInit Variant.object menusReal axesBogus).1.length ≠ 0 :=
  ⟨rfl, rfl, by decide⟩

/-- Claim C3 (amended): a run whose requested axis names include one
absent from a menu fails with the UnknownAxis ValueError before any
option or row click is issued; for the link variant no click at all
precedes the failure, while for the object variant exactly the
menu-opening clicks of option resolution (one per menu) precede it. -/
theorem c3_validation_before_selection (v : Variant) (menus : List (List String))
    (axes : List String) (m : String)
    (hval : validateAxes menus axes = Except.error m) :
    (engineInit v menus axes).2 = Except.error m
  ∧ (∀ i a, UIEvent.optionClick i a ∉ (engineInit v menus axes).1)
  ∧ (v = Variant.link → (engineInit v menus axes).1 = [])
  ∧ (v = Variant.object →
      (engineInit v menus axes).1 = (List.range menus.length).map UIEvent.menuClick) := by
  have h1 : engineInit v menus axes = (menuPhaseEvents v menus, Except.error m) := by
    simp [engineInit, hval]
  rw [h1]
  refine ⟨rfl, ?_, ?_, ?_⟩
  · intro i a
    cases v with
    | object =>
        unfold menuPhaseEvents
        rw [flatMap_object_menuClick]
        simp
    | link =>
        unfold menuPhaseEvents
        rw [flatMap_link_nil]
        simp
  · intro hv
    subst hv
    unfold menuPhaseEvents
    exact flatMap_link_nil _
  · intro hv
    subst hv
    unfold menuPhaseEvents
    exact flatMap_object_menuClick _

/-- Claim C3 witness: the amended theorem applied to the link variant
with a missing axis name. -/
theorem c3_validation_before_selection_witness :
    validateAxes menusReal axesBogus = Except.error "Axis name Bogus could not be found"
  ∧ (engineInit Variant.link menusReal axesBogus).1 = [] := by
  have hval : validateAxes menusReal axesBogus =
      Except.error "Axis name Bogus could not be found" := rfl
  exact ⟨hval,
    (c3_validation_before_selection Variant.link menusReal axesBogus _ hval).2.2.1 rfl⟩

/-- Claim C4, evaluation of the code at a failing input: on a dataset
whose columns first appear in the order B, A, the normalization raises
TypeError at the column-sort line (the keyword axis is passed to the
builtin sorted), with the columns still unsorted in the state at the
raise; no normalized dataset with sorted columns is ever produced. -/
theorem c4_column_sort_raises :
    clean_dataset (makeDF dataC4) =
      Except.error ("TypeError: axis is an invalid keyword argument for sorted()",
        { rows := [(("J", "K"), [("B", 2), ("A", 3)])], cols := ["B", "A"] })
  ∧ (makeDF dataC4).cols = ["B", "A"] :=
  ⟨rfl, rfl⟩

/-- Claim C5, evaluation of the code at a failing input: applying the
normalization step to a dataset already in normalized shape raises
TypeError at the column-sort line instead of leaving it unchanged;
the state at the raise equals the input, and the step returns no
dataset at all, so the normalized form is not a fixed point. -/
theorem c5_renormalize_raises :
    clean_dataset dfNormC5 =
      Except.error ("TypeError: axis is an invalid keyword argument for sorted()",
        dfNormC5)
  ∧ ∀ df : DF, clean_dataset dfNormC5 ≠ Except.ok df := by
  refine ⟨rfl, ?_⟩
  intro df h
  exact Except.noConfusion h

/-- Claim C6, evaluation of the code at a failing input: on the sparse
dataset with observed pairs (A, X) and (B, Y), the reindex and
zero-fill steps do build the full cross product in the intermediate
state, but the normalization then raises TypeError at the column-sort
line, so no normalized result containing those rows is produced. -/
theorem c6_cross_product_unreachable :
    clean_dataset (makeDF dataC6) =
      Except.error ("TypeError: axis is an invalid keyword argument for sorted()",
        dfC6AtRaise)
  ∧ dfC6AtRaise.rows.map (fun r => r.1) =
      [("A", "X"), ("A", "Y"), ("B", "X"), ("B", "Y")]
  ∧ rowLookup dfC6AtRaise.rows ("A", "Y") = some [("M", 0), ("N", 0)] :=
  ⟨rfl, rfl, rfl⟩

/-- Claim C9, evaluation of the code at a failing input: on the
dataset with data columns A = 3 and B = 7, normalization raises
TypeError at the column-sort line, which precedes the line appending
the Total column; the state at the raise has no Total column, and no
normalized row with a Total of 10 is ever produced. -/
theorem c9_total_unreachable :
    clean_dataset (makeDF dataC9) =
      Except.error ("TypeError: axis is an invalid keyword argument for sorted()",
        dfC9AtRaise)
  ∧ "Total" ∉ dfC9AtRaise.cols :=
  ⟨rfl, by decide⟩

/-! Helper lemmas about the traversal loops. -/

theorem t2Loop_datasetExc_stale (env : Env) (s : Script) (t1 : String) (i : Nat) :
    ∀ (l : List String) (data : Dataset) (j : Nat) (d : Dataset) (a : Nat)
      (b : Option Nat),
      t2Loop env s t1 i data j l = Except.error (PyError.datasetExc d a b) →
      ∃ t2, s.t2Click t1 t2 = ClickRes.staleRef := by
  intro l
  induction l with
  | nil =>
      intro data j d a b h
      simp only [t2Loop] at h
      exact Except.noConfusion h
  | cons t2 rest ih =>
      intro data j d a b h
      cases hc : s.t2Click t1 t2 with
      | staleRef => exact ⟨t2, hc⟩
      | timeoutExc =>
          simp only [t2Loop, hc] at h
          simp at h
      | ok =>
          simp only [t2Loop, hc] at h
          exact ih _ _ _ _ _ h

theorem t1Loop_datasetExc_stale (env : Env) (s : Script) (c2 : Option Nat) :
    ∀ (l : List String) (data : Dataset) (i : Nat) (d : Dataset) (a : Nat)
      (b : Option Nat),
      t1Loop env s c2 data i l = Except.error (PyError.datasetExc d a b) →
      (∃ t1, s.t1Click t1 = ClickRes.staleRef) ∨
      (∃ t1 t2, s.t2Click t1 t2 = ClickRes.staleRef) := by
  intro l
  induction l with
  | nil =>
      intro data i d a b h
      simp only [t1Loop] at h
      exact Except.noConfusion h
  | cons t1 rest ih =>
      intro data i d a b h
      cases hc : s.t1Click t1 with
      | staleRef => exact Or.inl ⟨t1, hc⟩
      | timeoutExc =>
          simp only [t1Loop, hc] at h
          simp at h
      | ok =>
          simp only [t1Loop, hc] at h
          cases ht : t2Loop env s t1 i (dsSetDefaultEmpty data t1) 0
              (pyDropOpt c2 (env.t2Rows t1)) with
          | ok data2 =>
              rw [ht] at h
              exact ih _ _ _ _ _ h
          | error e =>
              rw [ht] at h
              simp only [Except.error.injEq] at h
              subst h
              exact Or.inr ((t2Loop_datasetExc_stale env s t1 i _ _ _ _ _ _ ht).elim
                (fun t2 h2 => ⟨t1, t2, h2⟩))

/-- Claim C8: retry policy of the engine loop. An attempt that raises
DatasetException makes the loop retry with exactly the dumped
checkpoint and indices of that exception; an attempt that raises any
other exception makes the loop return it as fatal without retrying;
a DatasetException can only arise from a stale reference at a table-1
or table-2 click; and an UnknownAxis validation failure aborts the run
before the retry loop even starts. -/
theorem c8_retry_policy :
    (∀ (env : Env) (s : Script) (rest : List Script) (dump : Option Dataset)
        (c1 c2 : Option Nat) (dmp : Dataset) (i : Nat) (j : Option Nat),
        create_dataset env s dump c1 c2 = Except.error (PyError.datasetExc dmp i j) →
        engineLoop env (s :: rest) dump c1 c2 = engineLoop env rest (some dmp) (some i) j)
  ∧ (∀ (env : Env) (s : Script) (rest : List Script) (dump : Option Dataset)
        (c1 c2 : Option Nat) (e : PyError),
        (∀ (dmp : Dataset) (i : Nat) (j : Option Nat), e ≠ PyError.datasetExc dmp i j) →
        create_dataset env s dump c1 c2 = Except.error e →
        engineLoop env (s :: rest) dump c1 c2 = EngineOut.fatal e)
  ∧ (∀ (env : Env) (s : Script) (dump : Option Dataset) (c1 c2 : Option Nat)
        (dmp : Dataset) (i : Nat) (j : Option Nat),
        create_dataset env s dump c1 c2 = Except.error (PyError.datasetExc dmp i j) →
        (∃ t1, s.t1Click t1 = ClickRes.staleRef) ∨
        (∃ t1 t2, s.t2Click t1 t2 = ClickRes.staleRef))
  ∧ (∀ (env : Env) (menus : List (List String)) (axes : List String)
        (scripts : List Script) (m : String),
        validateAxes menus axes = Except.error m →
        engineRun env menus axes scripts = EngineOut.fatal (PyError.valueErr m)) := by
  refine ⟨?_, ?_, ?_, ?_⟩
  · intro env s rest dump c1 c2 dmp i j h
    simp [engineLoop, h]
  · intro env s rest dump c1 c2 e hne h
    cases e with
    | datasetExc dmp i j => exact absurd rfl (hne dmp i j)
    | timeoutExc => simp [engineLoop, h]
    | valueErr m => simp [engineLoop, h]
  · intro env s dump c1 c2 dmp i j h
    exact t1Loop_datasetExc_stale env s c2 _ _ _ _ _ _ h
  · intro env menus axes scripts m h
    simp [engineRun, h]

/-- Claim C8 witness: the stale-interrupted first attempt on `envAB`
is retried with its checkpoint and indices. -/
theorem c8_retry_policy_witness :
    engineLoop envAB [scriptStaleAY, scriptAllOk] none none none =
      engineLoop envAB [scriptAllOk] (some dumpAX) (some 0) (some 1) :=
  c8_retry_policy.1 envAB scriptStaleAY [scriptAllOk] none none none dumpAX 0 (some 1) rfl

end TracCollate
